import Mathlib

/-!
# Verification of the zarrs_ffi capability-checked array boundary layer

A shallow embedding of the `zarrs_ffi` FFI surface (src/lib.rs, src/array.rs,
src/array/array_read.rs, src/array/array_write.rs, src/array/array_read_write.rs,
src/array/array_sharded.rs, src/group.rs) together with a model of the parts of
the external `zarrs` storage engine that the boundary layer consumes.

Caller-side C buffers are modelled as Lists whose length is the corresponding
declared length/dimensionality argument; each boundary function returns the
result code, the value written through its out-parameter (`none` when the
buffer is untouched), and the message written to the process-wide `LAST_ERROR`
slot (`none` when the slot is untouched).
-/

namespace ZarrsFfi

/-- JSON values, the shape of `serde_json::Value`. -/
inductive Json where
  | null : Json
  | bool (b : Bool) : Json
  | num (n : Int) : Json
  | str (s : String) : Json
  | arr (xs : List Json) : Json
  | obj (fields : List (String × Json)) : Json

/-- The closed six-member capability classification used for storage, array and
group handles (`ZarrsArrayEnum` in src/array.rs, `ZarrsGroupEnum` in src/group.rs). -/
inductive CapVariant where
  | R : CapVariant
  | W : CapVariant
  | L : CapVariant
  | RL : CapVariant
  | RW : CapVariant
  | RWL : CapVariant
deriving DecidableEq, Repr

/-- Whether the variant includes the Readable capability. -/
def CapVariant.readable : CapVariant → Bool
  | .R => true
  | .W => false
  | .L => false
  | .RL => true
  | .RW => true
  | .RWL => true

/-- Whether the variant includes the Writable capability. -/
def CapVariant.writable : CapVariant → Bool
  | .R => false
  | .W => true
  | .L => false
  | .RL => false
  | .RW => true
  | .RWL => true

/-- Result codes of the boundary layer (`ZarrsResult` in src/lib.rs, plus the
codes used by src/array.rs, src/group.rs and src/config.rs). -/
inductive ZarrsResult where
  | success : ZarrsResult
  | nullPtr : ZarrsResult
  | storageErr : ZarrsResult
  | arrayErr : ZarrsResult
  | bufferLength : ZarrsResult
  | invalidIndices : ZarrsResult
  | nodePath : ZarrsResult
  | storePrefix : ZarrsResult
  | invalidMetadata : ZarrsResult
  | storageCapability : ZarrsResult
  | unknownChunkGridShape : ZarrsResult
  | unknownIntersectingChunks : ZarrsResult
  | unsupportedDataType : ZarrsResult
  | incompatibleDimensionality : ZarrsResult
  | groupErr : ZarrsResult
  | configErr : ZarrsResult
deriving DecidableEq, Repr

/-- The engine's `ArrayBytes` representation: fixed-length raw bytes
(`new_flen`) or a variable-length representation (`new_vlen`); `into_fixed`
succeeds exactly on the former. -/
inductive ArrayBytes where
  | flen (bytes : List Nat) : ArrayBytes
  | vlen : ArrayBytes
deriving DecidableEq, Repr

/-- `ArrayBytes::into_fixed`: fixed-length bytes or failure. -/
def ArrayBytes.into_fixed : ArrayBytes → Option (List Nat)
  | .flen bytes => some bytes
  | .vlen => none

/-- The metadata of an engine array object that the boundary layer reads
through the `array_fn!` dispatch macro: shape, regular chunk grid size,
data-type fixed byte size (`none` for variable-sized data types), JSON
attributes, and whether the sharding codec is in effect. -/
structure EngineArray where
  shape : List Nat
  chunkSize : List Nat
  dataTypeFixedSize : Option Nat
  attributes : List (String × Json)
  sharded : Bool

/-- An array handle (`ZarrsArray_T`): one of the six capability variants
wrapping an engine array object. -/
structure ArrayHandle where
  cap : CapVariant
  arr : EngineArray

/-- A group handle (`ZarrsGroup_T`): one of the six capability variants with
JSON attributes. -/
structure GroupHandle where
  cap : CapVariant
  attributes : List (String × Json)

/-- Output of one boundary call: the result code, the value written through
the out-parameter (`none` when the caller's buffer is untouched), and the
message written to the global `LAST_ERROR` slot (`none` when untouched). -/
structure FfiOut (α : Type) where
  res : ZarrsResult
  out : Option α
  errMsg : Option String
deriving DecidableEq, Repr

/-- The external storage engine's retrieve/store surface consumed by the
boundary layer (§6 of the spec): an abstract collaborator. Retrieval
primitives return `ArrayBytes` or an error message; store primitives return
unit or an error message. -/
structure Engine where
  retrieveChunk : List Nat → Except String ArrayBytes
  retrieveSubset : List Nat → List Nat → Except String ArrayBytes
  retrieveSubchunkSharded : List Nat → Except String ArrayBytes
  retrieveSubsetSharded : List Nat → List Nat → Except String ArrayBytes
  storeChunk : List Nat → List Nat → Except String Unit
  storeSubset : List Nat → List Nat → List Nat → Except String Unit
  storeMetadata : Except String Unit

/-- Modelled from the spec: the zarrs engine crate's sharded retrieval
extension (`retrieve_subchunk_opt`) is engine code, not part of this
repository; per §4.3, "If the array is not sharded, every retrieval through
the cache degenerates to ordinary whole-chunk retrieval". -/
def Engine.retrieveSubchunk (e : Engine) (a : EngineArray) (indices : List Nat) :
    Except String ArrayBytes :=
  if a.sharded then e.retrieveSubchunkSharded indices else e.retrieveChunk indices

/-- Modelled from the spec: the regular chunk grid's `chunk_shape` lives in the
zarrs engine crate, not under this repository's src/; per §4.2 the shape along
dimension d is `min(chunk_size[d], array_shape[d] - indices[d]*chunk_size[d])`
and the query fails if the index vector does not match the grid or any
`indices[d]*chunk_size[d] >= array_shape[d]`. Arguments: indices, array shape,
chunk size. -/
def chunkShapeDims : List Nat → List Nat → List Nat → Option (List Nat)
  | [], [], [] => some []
  | i :: is, s :: ss, c :: cs =>
    if i * c < s then
      match chunkShapeDims is ss cs with
      | some rest => some (min c (s - i * c) :: rest)
      | none => none
    else none
  | _, _, _ => none

/-- The engine's `chunk_shape(indices)` on an array's metadata. -/
def chunk_shape (a : EngineArray) (indices : List Nat) : Option (List Nat) :=
  chunkShapeDims indices a.shape a.chunkSize

/-- The chunk shape formula exactly as the spec words it (§4.2), for
comparison with the engine model: along each dimension d the value
`min(chunk_size[d], array_shape[d] - indices[d]*chunk_size[d])`. -/
def specChunkShape (shape chunkSize indices : List Nat) : List Nat :=
  List.zipWith3 (fun s c i => min c (s - i * c)) shape chunkSize indices

/-- The spec's in-range condition for chunk indices (§4.2): along every
dimension, `indices[d]*chunk_size[d] < array_shape[d]`. -/
def specInBounds (shape chunkSize indices : List Nat) : Prop :=
  ∀ p ∈ List.zip indices (List.zip shape chunkSize), p.1 * p.2.2 < p.2.1

instance (shape chunkSize indices : List Nat) :
    Decidable (specInBounds shape chunkSize indices) := by
  unfold specInBounds; infer_instance

theorem chunkShapeDims_eq_some (indices shape chunkSize : List Nat)
    (h1 : indices.length = shape.length) (h2 : indices.length = chunkSize.length)
    (hb : specInBounds shape chunkSize indices) :
    chunkShapeDims indices shape chunkSize =
      some (specChunkShape shape chunkSize indices) := by
  induction indices generalizing shape chunkSize with
  | nil =>
    cases shape with
    | nil =>
      cases chunkSize with
      | nil => rfl
      | cons c cs => simp at h2
    | cons s ss => simp at h1
  | cons i is ih =>
    cases shape with
    | nil => simp at h1
    | cons s ss =>
      cases chunkSize with
      | nil => simp at h2
      | cons c cs =>
        have hbi : i * c < s := by
          exact hb (i, s, c) (by simp [List.zip])
        have hbrest : specInBounds ss cs is := by
          intro p hp
          exact hb p (by simp [List.zip] at hp ⊢; right; exact hp)
        have := ih ss cs (by simpa using h1) (by simpa using h2) hbrest
        simp [chunkShapeDims, hbi, this, specChunkShape, List.zipWith3]

theorem chunkShapeDims_some_lengths (indices shape chunkSize l : List Nat)
    (h : chunkShapeDims indices shape chunkSize = some l) :
    indices.length = shape.length ∧ indices.length = chunkSize.length ∧
      specInBounds shape chunkSize indices := by
  induction indices generalizing shape chunkSize l with
  | nil =>
    cases shape with
    | nil =>
      cases chunkSize with
      | nil =>
        refine ⟨rfl, rfl, ?_⟩
        intro p hp; simp [List.zip] at hp
      | cons c cs => simp [chunkShapeDims] at h
    | cons s ss => simp [chunkShapeDims] at h
  | cons i is ih =>
    cases shape with
    | nil => simp [chunkShapeDims] at h
    | cons s ss =>
      cases chunkSize with
      | nil => simp [chunkShapeDims] at h
      | cons c cs =>
        by_cases hbi : i * c < s
        · simp only [chunkShapeDims, if_pos hbi] at h
          cases hrest : chunkShapeDims is ss cs with
          | none => rw [hrest] at h; exact absurd h (by simp)
          | some rest =>
            obtain ⟨hl1, hl2, hbr⟩ := ih ss cs rest hrest
            refine ⟨by simp [hl1], by simp [hl2], ?_⟩
            intro p hp
            simp [List.zip] at hp
            rcases hp with rfl | hp
            · exact hbi
            · exact hbr p hp
        · simp [chunkShapeDims, if_neg hbi] at h

theorem chunkShapeDims_none_of_length_ne (indices shape chunkSize : List Nat)
    (h : indices.length ≠ shape.length) :
    chunkShapeDims indices shape chunkSize = none := by
  cases hres : chunkShapeDims indices shape chunkSize with
  | none => rfl
  | some l => exact absurd (chunkShapeDims_some_lengths indices shape chunkSize l hres).1 h

/-- The error message the src files write for variable-size data types. -/
def varSizeMsg : String := "variable size data types are not supported"

/-- Stand-in for `err.to_string()` of the engine's chunk-shape/indices error,
whose exact wording is engine-internal. -/
def invalidChunkIndicesMsg : String := "invalid chunk grid indices"

/-- `zarrsArrayGetDimensionality` (src/array.rs): null check, then the
dimensionality via `array_fn!` dispatch; never touches `LAST_ERROR`. -/
def zarrsArrayGetDimensionality (h : Option ArrayHandle) : FfiOut Nat :=
  match h with
  | none => ⟨.nullPtr, none, none⟩
  | some hd => ⟨.success, some hd.arr.shape.length, none⟩

/-- `zarrsArrayGetShape` (src/array.rs): rejects with
`INCOMPATIBLE_DIMENSIONALITY` (writing no error message and no buffer) when
the declared dimensionality differs from the shape length, else copies the
shape into the caller's buffer. -/
def zarrsArrayGetShape (h : Option ArrayHandle) (dimensionality : Nat) :
    FfiOut (List Nat) :=
  match h with
  | none => ⟨.nullPtr, none, none⟩
  | some hd =>
    if hd.arr.shape.length ≠ dimensionality then
      ⟨.incompatibleDimensionality, none, none⟩
    else
      ⟨.success, some hd.arr.shape, none⟩

/-- `zarrsArrayGetChunkSize` (src/array.rs): `chunk_shape` via the engine,
then `product(chunk_shape) * data_type.fixed_size()`;
`UNSUPPORTED_DATA_TYPE` when the data type has no fixed size,
`INVALID_INDICES` when the engine's chunk-shape query fails. The chunk
indices list is the caller's buffer, its length the declared dimensionality. -/
def zarrsArrayGetChunkSize (h : Option ArrayHandle) (chunkIndices : List Nat) :
    FfiOut Nat :=
  match h with
  | none => ⟨.nullPtr, none, none⟩
  | some hd =>
    match chunk_shape hd.arr chunkIndices with
    | some cs =>
      match hd.arr.dataTypeFixedSize with
      | some sz => ⟨.success, some (cs.prod * sz), none⟩
      | none => ⟨.unsupportedDataType, none, some varSizeMsg⟩
    | none => ⟨.invalidIndices, none, some invalidChunkIndicesMsg⟩

/-- `zarrsArrayGetChunkShape` (src/array.rs): the engine's chunk shape copied
to the caller's buffer (`chunk_shape_to_array_shape` is the identity on the
numeric values), `INVALID_INDICES` on engine failure. -/
def zarrsArrayGetChunkShape (h : Option ArrayHandle) (chunkIndices : List Nat) :
    FfiOut (List Nat) :=
  match h with
  | none => ⟨.nullPtr, none, none⟩
  | some hd =>
    match chunk_shape hd.arr chunkIndices with
    | some cs => ⟨.success, some cs, none⟩
    | none => ⟨.invalidIndices, none, some invalidChunkIndicesMsg⟩

/-- `zarrsArrayGetSubsetSize` (src/array.rs):
`product(subset_shape) * data_type.fixed_size()`, `UNSUPPORTED_DATA_TYPE`
when the data type has no fixed size. -/
def zarrsArrayGetSubsetSize (h : Option ArrayHandle) (subsetShape : List Nat) :
    FfiOut Nat :=
  match h with
  | none => ⟨.nullPtr, none, none⟩
  | some hd =>
    match hd.arr.dataTypeFixedSize with
    | some sz => ⟨.success, some (subsetShape.prod * sz), none⟩
    | none => ⟨.unsupportedDataType, none, some varSizeMsg⟩

/-- `zarrsArrayRetrieveChunkImpl` (src/array/array_read.rs lines 10-39):
post-processing of the engine's `retrieve_chunk` result — `into_fixed`, then
the buffer-length check against the decoded size, then the copy of exactly
`chunk_bytes_length` bytes. -/
def zarrsArrayRetrieveChunkImpl (engineResult : Except String ArrayBytes)
    (chunk_bytes_length : Nat) : FfiOut (List Nat) :=
  match engineResult with
  | .ok bytes =>
    match bytes.into_fixed with
    | none => ⟨.unsupportedDataType, none, some varSizeMsg⟩
    | some bytes =>
      if bytes.length ≠ chunk_bytes_length then
        ⟨.bufferLength, none,
          some ("chunk_bytes_length " ++ toString chunk_bytes_length ++
            " does not match decoded chunk size " ++ toString bytes.length)⟩
      else
        ⟨.success, some bytes, none⟩
  | .error err => ⟨.arrayErr, none, some err⟩

/-- `zarrsArrayRetrieveChunk` (src/array/array_read.rs): null check, then
dispatch over the capability variants R, RL, RW, RWL; every other variant is
rejected with `STORAGE_CAPABILITY`. -/
def zarrsArrayRetrieveChunk (e : Engine) (h : Option ArrayHandle)
    (chunkIndices : List Nat) (chunkBytesCount : Nat) : FfiOut (List Nat) :=
  match h with
  | none => ⟨.nullPtr, none, none⟩
  | some hd =>
    match hd.cap with
    | .R => zarrsArrayRetrieveChunkImpl (e.retrieveChunk chunkIndices) chunkBytesCount
    | .RL => zarrsArrayRetrieveChunkImpl (e.retrieveChunk chunkIndices) chunkBytesCount
    | .RW => zarrsArrayRetrieveChunkImpl (e.retrieveChunk chunkIndices) chunkBytesCount
    | .RWL => zarrsArrayRetrieveChunkImpl (e.retrieveChunk chunkIndices) chunkBytesCount
    | _ => ⟨.storageCapability, none, some "storage does not have read capability"⟩

/-- `zarrsArrayRetrieveSubsetImpl` (src/array/array_read.rs lines 89-118):
post-processing of the engine's `retrieve_array_subset` result. -/
def zarrsArrayRetrieveSubsetImpl (engineResult : Except String ArrayBytes)
    (subset_bytes_length : Nat) : FfiOut (List Nat) :=
  match engineResult with
  | .ok bytes =>
    match bytes.into_fixed with
    | none => ⟨.unsupportedDataType, none, some varSizeMsg⟩
    | some bytes =>
      if bytes.length ≠ subset_bytes_length then
        ⟨.bufferLength, none,
          some ("subset_bytes_length " ++ toString subset_bytes_length ++
            " does not match decoded subset size " ++ toString bytes.length)⟩
      else
        ⟨.success, some bytes, none⟩
  | .error err => ⟨.arrayErr, none, some err⟩

/-- `zarrsArrayRetrieveSubset` (src/array/array_read.rs): null check, the
half-open subset built from the start/shape buffers, then dispatch over
R, RL, RW, RWL; every other variant is rejected with `STORAGE_CAPABILITY`. -/
def zarrsArrayRetrieveSubset (e : Engine) (h : Option ArrayHandle)
    (subsetStart subsetShape : List Nat) (subsetBytesCount : Nat) :
    FfiOut (List Nat) :=
  match h with
  | none => ⟨.nullPtr, none, none⟩
  | some hd =>
    match hd.cap with
    | .R => zarrsArrayRetrieveSubsetImpl (e.retrieveSubset subsetStart subsetShape) subsetBytesCount
    | .RL => zarrsArrayRetrieveSubsetImpl (e.retrieveSubset subsetStart subsetShape) subsetBytesCount
    | .RW => zarrsArrayRetrieveSubsetImpl (e.retrieveSubset subsetStart subsetShape) subsetBytesCount
    | .RWL => zarrsArrayRetrieveSubsetImpl (e.retrieveSubset subsetStart subsetShape) subsetBytesCount
    | _ => ⟨.storageCapability, none, some "storage does not have read capability"⟩

/-- Attach the delegated payload to a store impl's (result, message) pair:
the impl was reached, so the engine primitive was invoked with `payload`. -/
def withDelegated {α : Type} (p : ZarrsResult × Option String) (payload : α) :
    FfiOut α :=
  ⟨p.1, some payload, p.2⟩

/-- `zarrsArrayStoreMetadataImpl` (src/array/array_write.rs lines 10-20):
the engine's `store_metadata` result mapped to `SUCCESS` or `STORAGE`. -/
def zarrsArrayStoreMetadataImpl (engineResult : Except String Unit) :
    ZarrsResult × Option String :=
  match engineResult with
  | .ok _ => (.success, none)
  | .error err => (.storageErr, some err)

/-- `zarrsArrayStoreMetadata` (src/array/array_write.rs): null check, then
dispatch over W, RW, RWL; every other variant is rejected with
`STORAGE_CAPABILITY`. The `out` component records whether the engine's
store primitive was invoked (`none` = storage left untouched by this layer). -/
def zarrsArrayStoreMetadata (e : Engine) (h : Option ArrayHandle) : FfiOut Unit :=
  match h with
  | none => ⟨.nullPtr, none, none⟩
  | some hd =>
    match hd.cap with
    | .W => withDelegated (zarrsArrayStoreMetadataImpl e.storeMetadata) ()
    | .RW => withDelegated (zarrsArrayStoreMetadataImpl e.storeMetadata) ()
    | .RWL => withDelegated (zarrsArrayStoreMetadataImpl e.storeMetadata) ()
    | _ => ⟨.storageCapability, none, some "storage does not have write capability"⟩

/-- `zarrsArrayStoreChunkImpl` (src/array/array_write.rs lines 47-59): the
caller's bytes wrapped as a fixed-length payload and handed to the engine's
`store_chunk`; engine failure maps to `ARRAY`. -/
def zarrsArrayStoreChunkImpl (engineResult : Except String Unit) :
    ZarrsResult × Option String :=
  match engineResult with
  | .ok _ => (.success, none)
  | .error err => (.arrayErr, some err)

/-- `zarrsArrayStoreChunk` (src/array/array_write.rs lines 73-122): null
check, then — before any capability check — the engine chunk-shape query
(`INVALID_INDICES` on failure), the fixed-size query
(`UNSUPPORTED_DATA_TYPE`), and the buffer-length comparison
(`BUFFER_LENGTH`); only then dispatch over W, RW, RWL, rejecting every other
variant with `STORAGE_CAPABILITY`. The `out` component is the
(indices, bytes) payload handed to the engine (`none` = engine not invoked). -/
def zarrsArrayStoreChunk (e : Engine) (h : Option ArrayHandle)
    (chunkIndices chunkBytes : List Nat) : FfiOut (List Nat × List Nat) :=
  match h with
  | none => ⟨.nullPtr, none, none⟩
  | some hd =>
    match chunk_shape hd.arr chunkIndices with
    | none => ⟨.invalidIndices, none, some invalidChunkIndicesMsg⟩
    | some cs =>
      match hd.arr.dataTypeFixedSize with
      | none => ⟨.unsupportedDataType, none, some varSizeMsg⟩
      | some sz =>
        if chunkBytes.length ≠ cs.prod * sz then
          ⟨.bufferLength, none,
            some ("zarrsArrayRetrieveChunk chunk_bytes_length " ++
              toString chunkBytes.length ++ " does not match expected length " ++
              toString (cs.prod * sz))⟩
        else
          match hd.cap with
          | .W =>
            withDelegated (zarrsArrayStoreChunkImpl (e.storeChunk chunkIndices chunkBytes))
              (chunkIndices, chunkBytes)
          | .RW =>
            withDelegated (zarrsArrayStoreChunkImpl (e.storeChunk chunkIndices chunkBytes))
              (chunkIndices, chunkBytes)
          | .RWL =>
            withDelegated (zarrsArrayStoreChunkImpl (e.storeChunk chunkIndices chunkBytes))
              (chunkIndices, chunkBytes)
          | _ => ⟨.storageCapability, none, some "storage does not have write capability"⟩

/-- `zarrsArrayStoreSubsetImpl` (src/array/array_read_write.rs lines 10-22):
the caller's bytes wrapped as a fixed-length payload and handed to the
engine's `store_array_subset`; engine failure maps to `ARRAY`. -/
def zarrsArrayStoreSubsetImpl (engineResult : Except String Unit) :
    ZarrsResult × Option String :=
  match engineResult with
  | .ok _ => (.success, none)
  | .error err => (.arrayErr, some err)

/-- `zarrsArrayStoreSubset` (src/array/array_read_write.rs lines 36-68): null
check, the subset built from the start/shape buffers, then dispatch over
RW and RWL only (the engine's `store_array_subset` needs readable-writable
storage); every other variant — including plain W — is rejected with
`STORAGE_CAPABILITY`. No buffer-length check is performed at this layer. -/
def zarrsArrayStoreSubset (e : Engine) (h : Option ArrayHandle)
    (subsetStart subsetShape subsetBytes : List Nat) :
    FfiOut (List Nat × List Nat × List Nat) :=
  match h with
  | none => ⟨.nullPtr, none, none⟩
  | some hd =>
    match hd.cap with
    | .RW =>
      withDelegated (zarrsArrayStoreSubsetImpl (e.storeSubset subsetStart subsetShape subsetBytes))
        (subsetStart, subsetShape, subsetBytes)
    | .RWL =>
      withDelegated (zarrsArrayStoreSubsetImpl (e.storeSubset subsetStart subsetShape subsetBytes))
        (subsetStart, subsetShape, subsetBytes)
    | _ => ⟨.storageCapability, none, some "storage does not have read/write capability"⟩

/-- `zarrsCreateShardIndexCache` (src/array/array_sharded.rs lines 110-154):
null check, then a cache is created for the variants R, RW, RWL; every other
variant — including RL — falls into the default arm and is rejected with
`STORAGE_CAPABILITY`. The `out` component records cache creation. -/
def zarrsCreateShardIndexCache (h : Option ArrayHandle) : FfiOut Unit :=
  match h with
  | none => ⟨.nullPtr, none, none⟩
  | some hd =>
    match hd.cap with
    | .R => ⟨.success, some (), none⟩
    | .RW => ⟨.success, some (), none⟩
    | .RWL => ⟨.success, some (), none⟩
    | _ => ⟨.storageCapability, none, some "storage does not have read capability"⟩

/-- `zarrsArrayRetrieveSubChunkImpl` (src/array/array_sharded.rs lines
176-207): post-processing of the engine's `retrieve_subchunk_opt` result,
identical in structure and messages to `zarrsArrayRetrieveChunkImpl`. -/
def zarrsArrayRetrieveSubChunkImpl (engineResult : Except String ArrayBytes)
    (chunk_bytes_length : Nat) : FfiOut (List Nat) :=
  match engineResult with
  | .ok bytes =>
    match bytes.into_fixed with
    | none => ⟨.unsupportedDataType, none, some varSizeMsg⟩
    | some bytes =>
      if bytes.length ≠ chunk_bytes_length then
        ⟨.bufferLength, none,
          some ("chunk_bytes_length " ++ toString chunk_bytes_length ++
            " does not match decoded chunk size " ++ toString bytes.length)⟩
      else
        ⟨.success, some bytes, none⟩
  | .error err => ⟨.arrayErr, none, some err⟩

/-- `zarrsArrayRetrieveSubChunk` (src/array/array_sharded.rs lines 220-274):
null checks on both the array and the cache handle, then dispatch over
R, RL, RW, RWL; every other variant is rejected with `STORAGE_CAPABILITY`. -/
def zarrsArrayRetrieveSubChunk (e : Engine) (h : Option ArrayHandle)
    (cache : Option Unit) (chunkIndices : List Nat) (chunkBytesCount : Nat) :
    FfiOut (List Nat) :=
  match h, cache with
  | none, _ => ⟨.nullPtr, none, none⟩
  | some _, none => ⟨.nullPtr, none, none⟩
  | some hd, some _ =>
    match hd.cap with
    | .R => zarrsArrayRetrieveSubChunkImpl (e.retrieveSubchunk hd.arr chunkIndices) chunkBytesCount
    | .RL => zarrsArrayRetrieveSubChunkImpl (e.retrieveSubchunk hd.arr chunkIndices) chunkBytesCount
    | .RW => zarrsArrayRetrieveSubChunkImpl (e.retrieveSubchunk hd.arr chunkIndices) chunkBytesCount
    | .RWL => zarrsArrayRetrieveSubChunkImpl (e.retrieveSubchunk hd.arr chunkIndices) chunkBytesCount
    | _ => ⟨.storageCapability, none, some "storage does not have read capability"⟩

/-- `zarrsArrayRetrieveSubsetShardedImpl` (src/array/array_sharded.rs lines
276-310): post-processing of the engine's
`retrieve_array_subset_sharded_opt` result. -/
def zarrsArrayRetrieveSubsetShardedImpl (engineResult : Except String ArrayBytes)
    (subset_bytes_length : Nat) : FfiOut (List Nat) :=
  match engineResult with
  | .ok bytes =>
    match bytes.into_fixed with
    | none => ⟨.unsupportedDataType, none, some varSizeMsg⟩
    | some bytes =>
      if bytes.length ≠ subset_bytes_length then
        ⟨.bufferLength, none,
          some ("subset_bytes_length " ++ toString subset_bytes_length ++
            " does not match decoded subset size " ++ toString bytes.length)⟩
      else
        ⟨.success, some bytes, none⟩
  | .error err => ⟨.arrayErr, none, some err⟩

/-- `zarrsArrayRetrieveSubsetSharded` (src/array/array_sharded.rs lines
326-385): null checks on both handles, the subset built from the start/shape
buffers, then dispatch over R, RL, RW, RWL. -/
def zarrsArrayRetrieveSubsetSharded (e : Engine) (h : Option ArrayHandle)
    (cache : Option Unit) (subsetStart subsetShape : List Nat)
    (subsetBytesCount : Nat) : FfiOut (List Nat) :=
  match h, cache with
  | none, _ => ⟨.nullPtr, none, none⟩
  | some _, none => ⟨.nullPtr, none, none⟩
  | some hd, some _ =>
    match hd.cap with
    | .R =>
      zarrsArrayRetrieveSubsetShardedImpl (e.retrieveSubsetSharded subsetStart subsetShape)
        subsetBytesCount
    | .RL =>
      zarrsArrayRetrieveSubsetShardedImpl (e.retrieveSubsetSharded subsetStart subsetShape)
        subsetBytesCount
    | .RW =>
      zarrsArrayRetrieveSubsetShardedImpl (e.retrieveSubsetSharded subsetStart subsetShape)
        subsetBytesCount
    | .RWL =>
      zarrsArrayRetrieveSubsetShardedImpl (e.retrieveSubsetSharded subsetStart subsetShape)
        subsetBytesCount
    | _ => ⟨.storageCapability, none, some "storage does not have read capability"⟩

/-- `zarrsArraySetAttributes` (src/array.rs lines 632-658): the input string's
parse result (`none` models a `serde_json` parse failure); only
`Value::Object` is accepted, in which case the handle's attribute map is
cleared and the parsed map appended (whole-object replacement); any other
input yields `INVALID_METADATA` and leaves the attributes untouched. Returns
the call output and the post-state of the handle. -/
def zarrsArraySetAttributes (h : Option ArrayHandle) (parsed : Option Json) :
    FfiOut Unit × Option ArrayHandle :=
  match h with
  | none => (⟨.nullPtr, none, none⟩, none)
  | some hd =>
    match parsed with
    | some (Json.obj m) =>
      (⟨.success, some (), none⟩,
        some { hd with arr := { hd.arr with attributes := m } })
    | _ =>
      (⟨.invalidMetadata, none,
        some "error interpreting attributes to a json map"⟩, some hd)

/-- `zarrsGroupSetAttributes` (src/group.rs lines 225-251): identical
structure to the array version, over a group handle. -/
def zarrsGroupSetAttributes (h : Option GroupHandle) (parsed : Option Json) :
    FfiOut Unit × Option GroupHandle :=
  match h with
  | none => (⟨.nullPtr, none, none⟩, none)
  | some gd =>
    match parsed with
    | some (Json.obj m) =>
      (⟨.success, some (), none⟩, some { gd with attributes := m })
    | _ =>
      (⟨.invalidMetadata, none,
        some "error interpreting attributes to a json map"⟩, some gd)

/-- `zarrsLastError` semantics: one call's effect on the process-wide
`LAST_ERROR` slot — the slot keeps its value unless the call wrote a
message. -/
def stepSlot (slot : String) (msg : Option String) : String :=
  match msg with
  | none => slot
  | some m => m

/-- The `LAST_ERROR` slot after a sequence of calls, each contributing its
`errMsg` effect; the slot starts as the empty string (src/lib.rs line 42). -/
def runSlot (msgs : List (Option String)) : String :=
  msgs.foldl stepSlot ""

/-- A concrete array: shape 10×10, regular 4×4 chunks, 2-byte data type (the
spec's §8 boundary-chunk example with an explicit element size). -/
def testArray : EngineArray :=
  { shape := [10, 10], chunkSize := [4, 4], dataTypeFixedSize := some 2,
    attributes := [], sharded := false }

/-- The same array with a variable-sized data type. -/
def testArrayVar : EngineArray :=
  { testArray with dataTypeFixedSize := none }

/-- A concrete engine for evaluating the boundary layer on closed inputs:
chunk retrieval decodes a full 4×4×2 = 32-byte chunk, subset retrieval an
8-byte region, subset store fails engine-side (as it does on a byte-size
mismatch), everything else succeeds. -/
def testEngine : Engine :=
  { retrieveChunk := fun _ => .ok (.flen (List.replicate 32 0)),
    retrieveSubset := fun _ _ => .ok (.flen (List.replicate 8 0)),
    retrieveSubchunkSharded := fun _ => .error "no shard index",
    retrieveSubsetSharded := fun _ _ => .ok (.flen (List.replicate 8 0)),
    storeChunk := fun _ _ => .ok (),
    storeSubset := fun _ _ _ => .error "invalid input bytes",
    storeMetadata := .ok () }

/-- `testEngine` with a failing metadata store, for exercising the error
channel. -/
def failEngine : Engine :=
  { testEngine with storeMetadata := .error "boom" }

/-- C5: for a regular chunk grid, the chunk shape operation returns, along
each dimension d, `min(chunk_size[d], array_shape[d] - indices[d]*chunk_size[d])`
(so the last chunk along a dimension is clipped to the array bounds), and
fails with an InvalidIndices error — touching no caller buffer — if
`indices[d]*chunk_size[d] >= array_shape[d]` for some dimension. -/
theorem c5_chunk_shape_clipped (hd : ArrayHandle) (idx : List Nat)
    (h1 : idx.length = hd.arr.shape.length)
    (h2 : idx.length = hd.arr.chunkSize.length) :
    (specInBounds hd.arr.shape hd.arr.chunkSize idx →
      zarrsArrayGetChunkShape (some hd) idx =
        ⟨.success, some (specChunkShape hd.arr.shape hd.arr.chunkSize idx), none⟩)
    ∧ (¬ specInBounds hd.arr.shape hd.arr.chunkSize idx →
      (zarrsArrayGetChunkShape (some hd) idx).res = .invalidIndices
      ∧ (zarrsArrayGetChunkShape (some hd) idx).out = none) := by
  constructor
  · intro hb
    have hcs := chunkShapeDims_eq_some idx hd.arr.shape hd.arr.chunkSize h1 h2 hb
    simp [zarrsArrayGetChunkShape, chunk_shape, hcs]
  · intro hb
    have hnone : chunkShapeDims idx hd.arr.shape hd.arr.chunkSize = none := by
      cases hres : chunkShapeDims idx hd.arr.shape hd.arr.chunkSize with
      | none => rfl
      | some l =>
        exact absurd (chunkShapeDims_some_lengths idx hd.arr.shape hd.arr.chunkSize l hres).2.2 hb
    simp [zarrsArrayGetChunkShape, chunk_shape, hnone]

/-- C5 witness: the spec's §8 example — array shape [10,10], chunk size
[4,4]: chunk (0,0) has shape [4,4]; chunk (2,2) is clipped to [2,2]; chunk
(3,0) starts at 12 ≥ 10 and is rejected with InvalidIndices. -/
theorem c5_chunk_shape_clipped_witness :
    zarrsArrayGetChunkShape (some ⟨CapVariant.R, testArray⟩) [0, 0] =
      ⟨.success, some [4, 4], none⟩
    ∧ zarrsArrayGetChunkShape (some ⟨CapVariant.R, testArray⟩) [2, 2] =
      ⟨.success, some [2, 2], none⟩
    ∧ (zarrsArrayGetChunkShape (some ⟨CapVariant.R, testArray⟩) [3, 0]).res =
      .invalidIndices := by
  refine ⟨?_, ?_, ?_⟩
  · exact ((c5_chunk_shape_clipped ⟨CapVariant.R, testArray⟩ [0, 0] (by decide)
      (by decide)).1 (by decide)).trans (by decide)
  · exact ((c5_chunk_shape_clipped ⟨CapVariant.R, testArray⟩ [2, 2] (by decide)
      (by decide)).1 (by decide)).trans (by decide)
  · exact ((c5_chunk_shape_clipped ⟨CapVariant.R, testArray⟩ [3, 0] (by decide)
      (by decide)).2 (by decide)).1

/-- C4: for every fixed-size data type and every in-range chunk index vector,
the chunk byte size operation returns `product(chunk_shape(i)) * fixed_size`
(with `chunk_shape` the clipped per-dimension shape); if the handle's data
type has no fixed size it fails with UnsupportedDataType. -/
theorem c4_chunk_byte_size (hd : ArrayHandle) (idx : List Nat)
    (h1 : idx.length = hd.arr.shape.length)
    (h2 : idx.length = hd.arr.chunkSize.length)
    (hb : specInBounds hd.arr.shape hd.arr.chunkSize idx) :
    (∀ sz, hd.arr.dataTypeFixedSize = some sz →
      zarrsArrayGetChunkSize (some hd) idx =
        ⟨.success, some ((specChunkShape hd.arr.shape hd.arr.chunkSize idx).prod * sz), none⟩)
    ∧ (hd.arr.dataTypeFixedSize = none →
      zarrsArrayGetChunkSize (some hd) idx =
        ⟨.unsupportedDataType, none, some varSizeMsg⟩) := by
  have hcs := chunkShapeDims_eq_some idx hd.arr.shape hd.arr.chunkSize h1 h2 hb
  constructor
  · intro sz hsz
    simp [zarrsArrayGetChunkSize, chunk_shape, hcs, hsz]
  · intro hsz
    simp [zarrsArrayGetChunkSize, chunk_shape, hcs, hsz]

/-- C4 witness: on the 10×10/4×4 array with 2-byte elements, chunk (2,2) is
clipped to [2,2] and its byte size is 2·2·2 = 8; with a variable-sized data
type the same query fails with UnsupportedDataType. -/
theorem c4_chunk_byte_size_witness :
    zarrsArrayGetChunkSize (some ⟨CapVariant.R, testArray⟩) [2, 2] =
      ⟨.success, some 8, none⟩
    ∧ zarrsArrayGetChunkSize (some ⟨CapVariant.R, testArrayVar⟩) [2, 2] =
      ⟨.unsupportedDataType, none, some varSizeMsg⟩ := by
  constructor
  · exact ((c4_chunk_byte_size ⟨CapVariant.R, testArray⟩ [2, 2] (by decide) (by decide)
      (by decide)).1 2 rfl).trans (by decide)
  · exact (c4_chunk_byte_size ⟨CapVariant.R, testArrayVar⟩ [2, 2] (by decide) (by decide)
      (by decide)).2 rfl

/-- C3 (amended): a declared dimensionality different from the handle's makes
the shape query return IncompatibleDimensionality with no buffer written, but
the chunk-index-based queries (chunk size, chunk shape) route the mismatch
through the engine's index validation and return InvalidIndices — also with
no buffer written — not IncompatibleDimensionality. -/
theorem c3_dimensionality_mismatch (hd : ArrayHandle) (d : Nat) (idx : List Nat)
    (hdim : d ≠ hd.arr.shape.length)
    (hidx : idx.length ≠ hd.arr.shape.length) :
    ((zarrsArrayGetShape (some hd) d).res = .incompatibleDimensionality
      ∧ (zarrsArrayGetShape (some hd) d).out = none)
    ∧ ((zarrsArrayGetChunkSize (some hd) idx).res = .invalidIndices
      ∧ (zarrsArrayGetChunkSize (some hd) idx).out = none)
    ∧ ((zarrsArrayGetChunkShape (some hd) idx).res = .invalidIndices
      ∧ (zarrsArrayGetChunkShape (some hd) idx).out = none) := by
  have hnone := chunkShapeDims_none_of_length_ne idx hd.arr.shape hd.arr.chunkSize hidx
  refine ⟨?_, ?_, ?_⟩
  · simp [zarrsArrayGetShape, Ne.symm hdim]
  · simp [zarrsArrayGetChunkSize, chunk_shape, hnone]
  · simp [zarrsArrayGetChunkShape, chunk_shape, hnone]

/-- C3 witness: on the two-dimensional test array, declared dimensionality 1
gives IncompatibleDimensionality from the shape query and InvalidIndices from
the chunk-size query, with no buffer written in either case. -/
theorem c3_dimensionality_mismatch_witness :
    ((zarrsArrayGetShape (some ⟨CapVariant.RW, testArray⟩) 1).res =
        .incompatibleDimensionality
      ∧ (zarrsArrayGetShape (some ⟨CapVariant.RW, testArray⟩) 1).out = none)
    ∧ ((zarrsArrayGetChunkSize (some ⟨CapVariant.RW, testArray⟩) [0]).res =
        .invalidIndices
      ∧ (zarrsArrayGetChunkSize (some ⟨CapVariant.RW, testArray⟩) [0]).out = none)
    ∧ ((zarrsArrayGetChunkShape (some ⟨CapVariant.RW, testArray⟩) [0]).res =
        .invalidIndices
      ∧ (zarrsArrayGetChunkShape (some ⟨CapVariant.RW, testArray⟩) [0]).out = none) :=
  c3_dimensionality_mismatch ⟨CapVariant.RW, testArray⟩ 1 [0] (by decide) (by decide)

/-- C3 counterexample: the claim — every operation taking a caller-declared
dimensionality returns IncompatibleDimensionality on a mismatch — is false:
the chunk byte size query on the 2-dimensional test array with a declared
dimensionality of 1 returns InvalidIndices, not IncompatibleDimensionality. -/
theorem c3_counterexample :
    [(0 : Nat)].length ≠ testArray.shape.length
    ∧ (zarrsArrayGetChunkSize (some ⟨CapVariant.RW, testArray⟩) [0]).res =
        .invalidIndices
    ∧ (zarrsArrayGetChunkSize (some ⟨CapVariant.RW, testArray⟩) [0]).res ≠
        .incompatibleDimensionality := by
  refine ⟨by decide, by decide, by decide⟩

/-- C1 (amended): store metadata is rejected with StorageCapability exactly
when the variant lacks Writable, and delegated to the engine exactly when it
has it; store chunk behaves the same once its index/data-type/buffer-length
validation has passed (those checks precede the capability check); store
subset requires Readable and Writable, so it is rejected with
StorageCapability exactly when the variant is not RW or RWL — in particular a
plain-W handle is rejected. In every rejected case the engine store primitive
is not invoked, so storage is left unmodified by this layer. -/
theorem c1_store_capability_dispatch (e : Engine) (hd : ArrayHandle)
    (idx bytes start shape sbytes cs : List Nat) (sz : Nat)
    (hcs : chunk_shape hd.arr idx = some cs)
    (hsz : hd.arr.dataTypeFixedSize = some sz)
    (hlen : bytes.length = cs.prod * sz) :
    ((zarrsArrayStoreMetadata e (some hd)).res = .storageCapability
      ↔ hd.cap.writable = false)
    ∧ ((zarrsArrayStoreMetadata e (some hd)).out.isSome ↔ hd.cap.writable = true)
    ∧ ((zarrsArrayStoreChunk e (some hd) idx bytes).res = .storageCapability
      ↔ hd.cap.writable = false)
    ∧ ((zarrsArrayStoreChunk e (some hd) idx bytes).out.isSome
      ↔ hd.cap.writable = true)
    ∧ ((zarrsArrayStoreSubset e (some hd) start shape sbytes).res = .storageCapability
      ↔ ¬(hd.cap = .RW ∨ hd.cap = .RWL))
    ∧ ((zarrsArrayStoreSubset e (some hd) start shape sbytes).out.isSome
      ↔ (hd.cap = .RW ∨ hd.cap = .RWL)) := by
  rcases hd with ⟨cap, arr⟩
  simp only at hcs hsz
  cases cap <;>
    cases he : e.storeMetadata <;>
    cases hc : e.storeChunk idx bytes <;>
    cases hs : e.storeSubset start shape sbytes <;>
    simp [zarrsArrayStoreMetadata, zarrsArrayStoreChunk, zarrsArrayStoreSubset,
      zarrsArrayStoreMetadataImpl, zarrsArrayStoreChunkImpl, zarrsArrayStoreSubsetImpl,
      withDelegated, hcs, hsz, hlen, he, hc, hs, CapVariant.writable]

/-- C1 witness: on a Readable-only handle, storing a valid 32-byte chunk of
the test array is rejected with StorageCapability. -/
theorem c1_store_capability_dispatch_witness :
    (zarrsArrayStoreChunk testEngine (some ⟨CapVariant.R, testArray⟩) [0, 0]
      (List.replicate 32 0)).res = .storageCapability :=
  ((c1_store_capability_dispatch testEngine ⟨CapVariant.R, testArray⟩ [0, 0]
    (List.replicate 32 0) [0] [1] [] [4, 4] 2 (by decide) rfl (by decide)).2.2.1).mpr rfl

/-- C1 counterexample: the claim — every variant that includes Writable passes
the capability check of every store operation — is false: a plain-W handle's
store subset call is rejected with StorageCapability and never reaches the
engine. -/
theorem c1_counterexample :
    CapVariant.W.writable = true
    ∧ (zarrsArrayStoreSubset testEngine (some ⟨CapVariant.W, testArray⟩)
        [0, 0] [2, 2] (List.replicate 8 0)).res = .storageCapability
    ∧ (zarrsArrayStoreSubset testEngine (some ⟨CapVariant.W, testArray⟩)
        [0, 0] [2, 2] (List.replicate 8 0)).out = none :=
  ⟨rfl, rfl, rfl⟩

/-- C2 (amended): on a readable handle, retrieve chunk and retrieve subset
return BufferLength and write nothing when the caller's length differs from
the decoded size (which for a fixed-size data type is the address-arithmetic
size of the region); store chunk compares the caller's length against
`product(chunk_shape) * fixed_size` itself and returns BufferLength without
invoking the engine on a mismatch; store subset, however, performs no length
check at this layer — it can never return BufferLength, and a mismatch
surfaces as the engine's Array error instead. -/
theorem c2_buffer_length_checks (e : Engine) (hd : ArrayHandle)
    (idx start shape bytes cs b : List Nat) (sz count : Nat)
    (hcs : chunk_shape hd.arr idx = some cs)
    (hsz : hd.arr.dataTypeFixedSize = some sz) :
    (hd.cap.readable = true →
      e.retrieveChunk idx = .ok (.flen b) → b.length = cs.prod * sz →
      count ≠ cs.prod * sz →
      (zarrsArrayRetrieveChunk e (some hd) idx count).res = .bufferLength
      ∧ (zarrsArrayRetrieveChunk e (some hd) idx count).out = none)
    ∧ (hd.cap.readable = true →
      e.retrieveSubset start shape = .ok (.flen b) → b.length = shape.prod * sz →
      count ≠ shape.prod * sz →
      (zarrsArrayRetrieveSubset e (some hd) start shape count).res = .bufferLength
      ∧ (zarrsArrayRetrieveSubset e (some hd) start shape count).out = none)
    ∧ (bytes.length ≠ cs.prod * sz →
      (zarrsArrayStoreChunk e (some hd) idx bytes).res = .bufferLength
      ∧ (zarrsArrayStoreChunk e (some hd) idx bytes).out = none)
    ∧ (zarrsArrayStoreSubset e (some hd) start shape bytes).res ≠ .bufferLength := by
  rcases hd with ⟨cap, arr⟩
  simp only at hcs hsz
  refine ⟨?_, ?_, ?_, ?_⟩
  · intro hr hec hb hcount
    cases cap <;> simp [CapVariant.readable] at hr <;>
      simp [zarrsArrayRetrieveChunk, zarrsArrayRetrieveChunkImpl, hec,
        ArrayBytes.into_fixed, hb, hcount, Ne.symm hcount]
  · intro hr hes hb hcount
    cases cap <;> simp [CapVariant.readable] at hr <;>
      simp [zarrsArrayRetrieveSubset, zarrsArrayRetrieveSubsetImpl, hes,
        ArrayBytes.into_fixed, hb, hcount, Ne.symm hcount]
  · intro hlen
    cases cap <;>
      simp [zarrsArrayStoreChunk, hcs, hsz, hlen]
  · cases cap <;>
      cases hs : e.storeSubset start shape bytes <;>
      simp [zarrsArrayStoreSubset, zarrsArrayStoreSubsetImpl, withDelegated, hs]

/-- C2 witness: retrieving chunk (0,0) of the test array (decoded size 32)
with a declared buffer length of 31 yields BufferLength and leaves the buffer
untouched. -/
theorem c2_buffer_length_checks_witness :
    (zarrsArrayRetrieveChunk testEngine (some ⟨CapVariant.R, testArray⟩) [0, 0] 31).res =
      .bufferLength
    ∧ (zarrsArrayRetrieveChunk testEngine (some ⟨CapVariant.R, testArray⟩) [0, 0] 31).out =
      none :=
  (c2_buffer_length_checks testEngine ⟨CapVariant.R, testArray⟩ [0, 0] [0] [1] []
    [4, 4] (List.replicate 32 0) 2 31 (by decide) rfl).1 rfl rfl (by decide) (by decide)

/-- C2 counterexample: the claim — every byte-level write with a mismatched
buffer length returns BufferLength and transfers no bytes — is false for
store subset: on an RW handle, a 1-byte buffer for a subset whose
address-arithmetic size is 2·2·2 = 8 bytes is handed to the engine anyway,
and the engine's rejection surfaces as an Array error, not BufferLength. -/
theorem c2_counterexample :
    (zarrsArrayGetSubsetSize (some ⟨CapVariant.RW, testArray⟩) [2, 2]).out = some 8
    ∧ (zarrsArrayStoreSubset testEngine (some ⟨CapVariant.RW, testArray⟩)
        [0, 0] [2, 2] [7]).res = .arrayErr
    ∧ (zarrsArrayStoreSubset testEngine (some ⟨CapVariant.RW, testArray⟩)
        [0, 0] [2, 2] [7]).res ≠ .bufferLength
    ∧ (zarrsArrayStoreSubset testEngine (some ⟨CapVariant.RW, testArray⟩)
        [0, 0] [2, 2] [7]).out = some ([0, 0], [2, 2], [7]) := by
  refine ⟨rfl, rfl, by decide, rfl⟩

/-- The read-path postcondition: either the call succeeded and the full
declared byte range was written into the caller's buffer, or it failed and
the buffer is untouched. -/
def ReadAllOrNothing (o : FfiOut (List Nat)) (count : Nat) : Prop :=
  (o.res = .success ∧ ∃ b, o.out = some b ∧ b.length = count)
  ∨ (o.res ≠ .success ∧ o.out = none)

theorem readAllOrNothing_retrieveChunkImpl (r : Except String ArrayBytes)
    (count : Nat) : ReadAllOrNothing (zarrsArrayRetrieveChunkImpl r count) count := by
  rcases r with err | bytes
  · right
    simp [zarrsArrayRetrieveChunkImpl]
  · rcases bytes with b | _
    · by_cases hlen : b.length = count
      · left
        simp [zarrsArrayRetrieveChunkImpl, ArrayBytes.into_fixed, hlen]
      · right
        simp [zarrsArrayRetrieveChunkImpl, ArrayBytes.into_fixed, hlen]
    · right
      simp [zarrsArrayRetrieveChunkImpl, ArrayBytes.into_fixed]

theorem readAllOrNothing_retrieveSubsetImpl (r : Except String ArrayBytes)
    (count : Nat) : ReadAllOrNothing (zarrsArrayRetrieveSubsetImpl r count) count := by
  rcases r with err | bytes
  · right
    simp [zarrsArrayRetrieveSubsetImpl]
  · rcases bytes with b | _
    · by_cases hlen : b.length = count
      · left
        simp [zarrsArrayRetrieveSubsetImpl, ArrayBytes.into_fixed, hlen]
      · right
        simp [zarrsArrayRetrieveSubsetImpl, ArrayBytes.into_fixed, hlen]
    · right
      simp [zarrsArrayRetrieveSubsetImpl, ArrayBytes.into_fixed]

theorem retrieveSubChunkImpl_eq_retrieveChunkImpl (r : Except String ArrayBytes)
    (count : Nat) :
    zarrsArrayRetrieveSubChunkImpl r count = zarrsArrayRetrieveChunkImpl r count := rfl

theorem retrieveSubsetShardedImpl_eq_retrieveSubsetImpl (r : Except String ArrayBytes)
    (count : Nat) :
    zarrsArrayRetrieveSubsetShardedImpl r count = zarrsArrayRetrieveSubsetImpl r count := rfl

/-- C6: on the read path — retrieve chunk, retrieve subset, and their
shard-cache variants — every call either writes the full declared byte range
into the caller's buffer (on success) or writes none of it (on any failure:
null handle, missing capability, engine error, variable-size data, or
decoded-size mismatch); partial buffer mutation never occurs. -/
theorem c6_read_all_or_nothing (e : Engine) (h : Option ArrayHandle)
    (cache : Option Unit) (idx start shape : List Nat) (count : Nat) :
    ReadAllOrNothing (zarrsArrayRetrieveChunk e h idx count) count
    ∧ ReadAllOrNothing (zarrsArrayRetrieveSubset e h start shape count) count
    ∧ ReadAllOrNothing (zarrsArrayRetrieveSubChunk e h cache idx count) count
    ∧ ReadAllOrNothing (zarrsArrayRetrieveSubsetSharded e h cache start shape count) count := by
  have hcapfail : ∀ msg : String,
      ReadAllOrNothing ⟨.storageCapability, none, some msg⟩ count := by
    intro msg; right; exact ⟨by simp, rfl⟩
  have hnull : ReadAllOrNothing ⟨.nullPtr, none, none⟩ count := by
    right; exact ⟨by simp, rfl⟩
  refine ⟨?_, ?_, ?_, ?_⟩
  · rcases h with _ | ⟨cap, arr⟩
    · exact hnull
    · cases cap <;>
        first
        | exact readAllOrNothing_retrieveChunkImpl _ count
        | exact hcapfail _
  · rcases h with _ | ⟨cap, arr⟩
    · exact hnull
    · cases cap <;>
        first
        | exact readAllOrNothing_retrieveSubsetImpl _ count
        | exact hcapfail _
  · rcases h with _ | ⟨cap, arr⟩
    · exact hnull
    · rcases cache with _ | _
      · exact hnull
      · cases cap <;>
          first
          | exact readAllOrNothing_retrieveChunkImpl (e.retrieveSubchunk arr idx) count
          | exact hcapfail _
  · rcases h with _ | ⟨cap, arr⟩
    · exact hnull
    · rcases cache with _ | _
      · exact hnull
      · cases cap <;>
          first
          | exact readAllOrNothing_retrieveSubsetImpl (e.retrieveSubsetSharded start shape) count
          | exact hcapfail _

/-- C7: constructing a shard index cache succeeds for the variants R, RW and
RWL and is rejected with StorageCapability for W and L — but it is also
rejected for RL, even though RL includes the Readable capability, because the
source's match lists only R, RW and RWL and lets RL fall into the default
arm, contradicting the function's own documentation ("returns an error if the
array does not have read capability") and the sibling retrieval operations,
which all accept RL. -/
theorem c7_rl_cache_rejected :
    CapVariant.RL.readable = true
    ∧ zarrsCreateShardIndexCache (some ⟨CapVariant.RL, testArray⟩) =
        ⟨.storageCapability, none, some "storage does not have read capability"⟩
    ∧ (zarrsCreateShardIndexCache (some ⟨CapVariant.R, testArray⟩)).res = .success
    ∧ (zarrsCreateShardIndexCache (some ⟨CapVariant.RW, testArray⟩)).res = .success
    ∧ (zarrsCreateShardIndexCache (some ⟨CapVariant.RWL, testArray⟩)).res = .success
    ∧ (zarrsCreateShardIndexCache (some ⟨CapVariant.W, testArray⟩)).res =
        .storageCapability
    ∧ (zarrsCreateShardIndexCache (some ⟨CapVariant.L, testArray⟩)).res =
        .storageCapability :=
  ⟨rfl, rfl, rfl, rfl, rfl, rfl, rfl⟩

/-- C8: on a non-sharded array, retrieving through the shard index cache
returns exactly the same result code, buffer contents and error-channel
effect as the ordinary whole-chunk retrieval for the same indices, whatever
the handle's capability variant and whatever the engine returns. -/
theorem c8_subchunk_degenerates (e : Engine) (hd : ArrayHandle)
    (idx : List Nat) (count : Nat) (hsh : hd.arr.sharded = false) :
    zarrsArrayRetrieveSubChunk e (some hd) (some ()) idx count =
      zarrsArrayRetrieveChunk e (some hd) idx count := by
  rcases hd with ⟨cap, arr⟩
  simp only at hsh
  cases cap <;>
    simp [zarrsArrayRetrieveSubChunk, zarrsArrayRetrieveChunk, Engine.retrieveSubchunk,
      hsh, retrieveSubChunkImpl_eq_retrieveChunkImpl]

/-- C8 witness: on the non-sharded test array, cache-based retrieval of chunk
(0,0) with a 32-byte buffer coincides with ordinary chunk retrieval. -/
theorem c8_subchunk_degenerates_witness :
    zarrsArrayRetrieveSubChunk testEngine (some ⟨CapVariant.R, testArray⟩) (some ())
      [0, 0] 32 =
      zarrsArrayRetrieveChunk testEngine (some ⟨CapVariant.R, testArray⟩) [0, 0] 32 :=
  c8_subchunk_degenerates testEngine ⟨CapVariant.R, testArray⟩ [0, 0] 32 rfl

/-- C9: set_attributes with input parsing to a JSON object replaces the
entire attribute set with the parsed map and succeeds; with input that is
valid JSON but not an object, or not valid JSON at all (`parsed = none`), it
returns InvalidMetadata and the prior attributes are left exactly unchanged —
for array and group handles alike. -/
theorem c9_set_attributes_replace (hd : ArrayHandle) (gd : GroupHandle)
    (parsed : Option Json) :
    (∀ m, parsed = some (Json.obj m) →
      zarrsArraySetAttributes (some hd) parsed =
        (⟨.success, some (), none⟩,
          some { hd with arr := { hd.arr with attributes := m } })
      ∧ zarrsGroupSetAttributes (some gd) parsed =
        (⟨.success, some (), none⟩, some { gd with attributes := m }))
    ∧ ((∀ m, parsed ≠ some (Json.obj m)) →
      zarrsArraySetAttributes (some hd) parsed =
        (⟨.invalidMetadata, none,
          some "error interpreting attributes to a json map"⟩, some hd)
      ∧ zarrsGroupSetAttributes (some gd) parsed =
        (⟨.invalidMetadata, none,
          some "error interpreting attributes to a json map"⟩, some gd)) := by
  constructor
  · rintro m rfl
    exact ⟨rfl, rfl⟩
  · intro hno
    match parsed with
    | none => exact ⟨rfl, rfl⟩
    | some Json.null => exact ⟨rfl, rfl⟩
    | some (Json.bool b) => exact ⟨rfl, rfl⟩
    | some (Json.num n) => exact ⟨rfl, rfl⟩
    | some (Json.str s) => exact ⟨rfl, rfl⟩
    | some (Json.arr xs) => exact ⟨rfl, rfl⟩
    | some (Json.obj m) => exact absurd rfl (hno m)

/-- C9 witness: setting attributes from the object `\x7b"a":1\x7d` replaces
the array's attribute map with exactly that map and succeeds; setting group
attributes from the JSON array `[]` fails with InvalidMetadata and leaves the
group's attributes unchanged. -/
theorem c9_set_attributes_replace_witness :
    zarrsArraySetAttributes (some ⟨CapVariant.RW, testArray⟩)
        (some (Json.obj [("a", Json.num 1)])) =
      (⟨.success, some (), none⟩,
        some ⟨CapVariant.RW, { testArray with attributes := [("a", Json.num 1)] }⟩)
    ∧ zarrsGroupSetAttributes (some ⟨CapVariant.RW, [("old", Json.num 2)]⟩)
        (some (Json.arr [])) =
      (⟨.invalidMetadata, none,
        some "error interpreting attributes to a json map"⟩,
        some ⟨CapVariant.RW, [("old", Json.num 2)]⟩) := by
  constructor
  · exact ((c9_set_attributes_replace ⟨CapVariant.RW, testArray⟩
      ⟨CapVariant.RW, [("old", Json.num 2)]⟩
      (some (Json.obj [("a", Json.num 1)]))).1 [("a", Json.num 1)] rfl).1
  · exact ((c9_set_attributes_replace ⟨CapVariant.RW, testArray⟩
      ⟨CapVariant.RW, [("old", Json.num 2)]⟩ (some (Json.arr []))).2
      (fun m h => Json.noConfusion (Option.some.inj h))).2

/-- A call that returns success never writes the `LAST_ERROR` slot: either
the call did not succeed, or it left the slot untouched. -/
def SuccessLeavesSlot {α : Type} (o : FfiOut α) : Prop :=
  o.res ≠ .success ∨ o.errMsg = none

theorem successLeavesSlot_getDimensionality (h : Option ArrayHandle) :
    SuccessLeavesSlot (zarrsArrayGetDimensionality h) := by
  unfold SuccessLeavesSlot zarrsArrayGetDimensionality
  repeat' split
  all_goals exact Or.inr rfl

theorem successLeavesSlot_getShape (h : Option ArrayHandle) (d : Nat) :
    SuccessLeavesSlot (zarrsArrayGetShape h d) := by
  unfold SuccessLeavesSlot zarrsArrayGetShape
  repeat' split
  all_goals exact Or.inr rfl

theorem successLeavesSlot_getChunkSize (h : Option ArrayHandle) (idx : List Nat) :
    SuccessLeavesSlot (zarrsArrayGetChunkSize h idx) := by
  unfold SuccessLeavesSlot zarrsArrayGetChunkSize
  repeat' split
  all_goals first | (right; rfl) | (left; simp)

theorem successLeavesSlot_getChunkShape (h : Option ArrayHandle) (idx : List Nat) :
    SuccessLeavesSlot (zarrsArrayGetChunkShape h idx) := by
  unfold SuccessLeavesSlot zarrsArrayGetChunkShape
  repeat' split
  all_goals first | (right; rfl) | (left; simp)

theorem successLeavesSlot_getSubsetSize (h : Option ArrayHandle) (shape : List Nat) :
    SuccessLeavesSlot (zarrsArrayGetSubsetSize h shape) := by
  unfold SuccessLeavesSlot zarrsArrayGetSubsetSize
  repeat' split
  all_goals first | (right; rfl) | (left; simp)

theorem successLeavesSlot_retrieveChunk (e : Engine) (h : Option ArrayHandle)
    (idx : List Nat) (count : Nat) :
    SuccessLeavesSlot (zarrsArrayRetrieveChunk e h idx count) := by
  unfold SuccessLeavesSlot zarrsArrayRetrieveChunk zarrsArrayRetrieveChunkImpl
    ArrayBytes.into_fixed
  repeat' split
  all_goals first | (right; rfl) | (left; simp)

theorem successLeavesSlot_retrieveSubset (e : Engine) (h : Option ArrayHandle)
    (start shape : List Nat) (count : Nat) :
    SuccessLeavesSlot (zarrsArrayRetrieveSubset e h start shape count) := by
  unfold SuccessLeavesSlot zarrsArrayRetrieveSubset zarrsArrayRetrieveSubsetImpl
    ArrayBytes.into_fixed
  repeat' split
  all_goals first | (right; rfl) | (left; simp)

theorem successLeavesSlot_retrieveSubChunk (e : Engine) (h : Option ArrayHandle)
    (cache : Option Unit) (idx : List Nat) (count : Nat) :
    SuccessLeavesSlot (zarrsArrayRetrieveSubChunk e h cache idx count) := by
  unfold SuccessLeavesSlot zarrsArrayRetrieveSubChunk zarrsArrayRetrieveSubChunkImpl
    ArrayBytes.into_fixed
  repeat' split
  all_goals first | (right; rfl) | (left; simp)

theorem successLeavesSlot_retrieveSubsetSharded (e : Engine) (h : Option ArrayHandle)
    (cache : Option Unit) (start shape : List Nat) (count : Nat) :
    SuccessLeavesSlot (zarrsArrayRetrieveSubsetSharded e h cache start shape count) := by
  unfold SuccessLeavesSlot zarrsArrayRetrieveSubsetSharded
    zarrsArrayRetrieveSubsetShardedImpl ArrayBytes.into_fixed
  repeat' split
  all_goals first | (right; rfl) | (left; simp)

theorem successLeavesSlot_storeMetadata (e : Engine) (h : Option ArrayHandle) :
    SuccessLeavesSlot (zarrsArrayStoreMetadata e h) := by
  unfold SuccessLeavesSlot zarrsArrayStoreMetadata zarrsArrayStoreMetadataImpl withDelegated
  cases e.storeMetadata <;> repeat' split
  all_goals first | exact Or.inr rfl | (left; simp)

theorem successLeavesSlot_storeChunk (e : Engine) (h : Option ArrayHandle)
    (idx bytes : List Nat) :
    SuccessLeavesSlot (zarrsArrayStoreChunk e h idx bytes) := by
  unfold SuccessLeavesSlot zarrsArrayStoreChunk zarrsArrayStoreChunkImpl withDelegated
  cases e.storeChunk idx bytes <;> repeat' split
  all_goals first | exact Or.inr rfl | (left; simp)

theorem successLeavesSlot_storeSubset (e : Engine) (h : Option ArrayHandle)
    (start shape bytes : List Nat) :
    SuccessLeavesSlot (zarrsArrayStoreSubset e h start shape bytes) := by
  unfold SuccessLeavesSlot zarrsArrayStoreSubset zarrsArrayStoreSubsetImpl withDelegated
  cases e.storeSubset start shape bytes <;> repeat' split
  all_goals first | exact Or.inr rfl | (left; simp)

theorem successLeavesSlot_createShardIndexCache (h : Option ArrayHandle) :
    SuccessLeavesSlot (zarrsCreateShardIndexCache h) := by
  unfold SuccessLeavesSlot zarrsCreateShardIndexCache
  repeat' split
  all_goals first | (right; rfl) | (left; simp)

theorem successLeavesSlot_arraySetAttributes (h : Option ArrayHandle)
    (parsed : Option Json) :
    SuccessLeavesSlot (zarrsArraySetAttributes h parsed).1 := by
  unfold SuccessLeavesSlot zarrsArraySetAttributes
  repeat' split
  all_goals first | (right; rfl) | (left; simp)

theorem successLeavesSlot_groupSetAttributes (g : Option GroupHandle)
    (parsed : Option Json) :
    SuccessLeavesSlot (zarrsGroupSetAttributes g parsed).1 := by
  unfold SuccessLeavesSlot zarrsGroupSetAttributes
  repeat' split
  all_goals first | (right; rfl) | (left; simp)

/-- C10 (amended): the slot starts as the empty string, and every modelled
operation that returns success leaves the process-wide last-error slot
untouched, so the slot always holds the most recently *written* failure
message. (Not every failing call writes one: null-handle and
dimensionality-mismatch rejections leave the slot unchanged, so the slot may
stem from an earlier failing call than the most recent one.) -/
theorem c10_success_leaves_slot (e : Engine) (h : Option ArrayHandle)
    (g : Option GroupHandle) (cache : Option Unit) (parsed : Option Json)
    (idx start shape bytes : List Nat) (d count : Nat) :
    runSlot [] = ""
    ∧ SuccessLeavesSlot (zarrsArrayGetDimensionality h)
    ∧ SuccessLeavesSlot (zarrsArrayGetShape h d)
    ∧ SuccessLeavesSlot (zarrsArrayGetChunkSize h idx)
    ∧ SuccessLeavesSlot (zarrsArrayGetChunkShape h idx)
    ∧ SuccessLeavesSlot (zarrsArrayGetSubsetSize h shape)
    ∧ SuccessLeavesSlot (zarrsArrayRetrieveChunk e h idx count)
    ∧ SuccessLeavesSlot (zarrsArrayRetrieveSubset e h start shape count)
    ∧ SuccessLeavesSlot (zarrsArrayRetrieveSubChunk e h cache idx count)
    ∧ SuccessLeavesSlot (zarrsArrayRetrieveSubsetSharded e h cache start shape count)
    ∧ SuccessLeavesSlot (zarrsArrayStoreMetadata e h)
    ∧ SuccessLeavesSlot (zarrsArrayStoreChunk e h idx bytes)
    ∧ SuccessLeavesSlot (zarrsArrayStoreSubset e h start shape bytes)
    ∧ SuccessLeavesSlot (zarrsCreateShardIndexCache h)
    ∧ SuccessLeavesSlot (zarrsArraySetAttributes h parsed).1
    ∧ SuccessLeavesSlot (zarrsGroupSetAttributes g parsed).1 :=
  ⟨rfl,
    successLeavesSlot_getDimensionality h,
    successLeavesSlot_getShape h d,
    successLeavesSlot_getChunkSize h idx,
    successLeavesSlot_getChunkShape h idx,
    successLeavesSlot_getSubsetSize h shape,
    successLeavesSlot_retrieveChunk e h idx count,
    successLeavesSlot_retrieveSubset e h start shape count,
    successLeavesSlot_retrieveSubChunk e h cache idx count,
    successLeavesSlot_retrieveSubsetSharded e h cache start shape count,
    successLeavesSlot_storeMetadata e h,
    successLeavesSlot_storeChunk e h idx bytes,
    successLeavesSlot_storeSubset e h start shape bytes,
    successLeavesSlot_createShardIndexCache h,
    successLeavesSlot_arraySetAttributes h parsed,
    successLeavesSlot_groupSetAttributes g parsed⟩

/-- C10 counterexample: the claim — the last-error query always returns the
message written by the most recent failing call — is false, because some
failing calls write nothing: after a failing metadata store writes "boom"
and a subsequent shape query fails with a dimensionality mismatch (writing
nothing), the slot still reads "boom", yet the most recent failing call
wrote no message at all. -/
theorem c10_counterexample :
    (zarrsArrayStoreMetadata failEngine (some ⟨CapVariant.W, testArray⟩)).res ≠ .success
    ∧ (zarrsArrayStoreMetadata failEngine (some ⟨CapVariant.W, testArray⟩)).errMsg =
        some "boom"
    ∧ (zarrsArrayGetShape (some ⟨CapVariant.W, testArray⟩) 1).res ≠ .success
    ∧ (zarrsArrayGetShape (some ⟨CapVariant.W, testArray⟩) 1).errMsg = none
    ∧ runSlot [(zarrsArrayStoreMetadata failEngine (some ⟨CapVariant.W, testArray⟩)).errMsg,
        (zarrsArrayGetShape (some ⟨CapVariant.W, testArray⟩) 1).errMsg] = "boom" := by
  refine ⟨by decide, rfl, by decide, rfl, rfl⟩

end ZarrsFfi
